import Mathlib

/-!
# Verification of the PushBot BLE bridge against its specification

This file gives a shallow embedding of the two source variants of the
homebridge-pushbot plugin (`src/index.js`, called `V1` below, and the
heartbeat variant `src/unnamed/part_000`, called `V2`) and proves or
refutes the frozen claims about them.

The embedding follows the JavaScript source line by line:
* pure string/byte manipulations (`Buffer.from(hex, 'hex')`, MAC address
  normalisation and comparison) become Lean functions on `List Char` /
  `List Nat`;
* the mutable per-accessory fields (`isConnected`, `writeChar`,
  `notifyChar`, `isSwitchOn`, `heartbeatTimer`, and whether the one-shot
  `disconnect` observer is currently armed) become a `BotState` record;
* each stateful operation (`connectDevice`, `handleSetOn`, the timer
  bodies, the disconnect callback) becomes a function from `BotState`
  (plus parameters describing the outcomes of the fallible BLE calls) to a
  new `BotState`, a trace of externally visible events, and a flag telling
  whether the operation re-threw to its caller;
* the registry (`discoverDevices`) and the accessory constructor become
  `Except`-valued functions, since in JavaScript an absent required config
  field makes the constructor throw a `TypeError`.
-/

namespace PushBot

/-! ## Hex decoding: `Buffer.from(config.push_packet_hex, 'hex')`

Node decodes hex two digits at a time and truncates at the first invalid
pair (an odd trailing digit is dropped). -/

/-- Value of one hex digit (48, 87 and 55 are the code offsets of the
ranges 0-9, a-f and A-F respectively). -/
def hexDigitVal (c : Char) : Option Nat :=
  if c.isDigit then some (c.toNat - 48)
  else if c ≥ 'a' && c ≤ 'f' then some (c.toNat - 87)
  else if c ≥ 'A' && c ≤ 'F' then some (c.toNat - 55)
  else none

def bufferFromHexL : List Char → List Nat
  | c1 :: c2 :: rest =>
    match hexDigitVal c1, hexDigitVal c2 with
    | some h, some l => (16 * h + l) :: bufferFromHexL rest
    | _, _ => []
  | _ => []

def bufferFromHex (s : String) : List Nat := bufferFromHexL s.data

/-! ## MAC address handling

Constructor (`this.macAddress`):
`(config.mac_address || '').toLowerCase().replace(/[^0-9a-f]/g, '')`.

Discovery loop comparison:
`addr.toUpperCase().replace(/:/g, '') === this.macAddress.toUpperCase()`.
-/

/-- The character class `[0-9a-f]` of the regex in the constructor. -/
def hexLowerChars : List Char :=
  (['0', '1', '2', '3'] ++ ['4', '5', '6', '7'])
    ++ (['8', '9', 'a', 'b'] ++ ['c', 'd', 'e', 'f'])

def isHexLower (c : Char) : Bool := decide (c ∈ hexLowerChars)

def jsToLower (s : List Char) : List Char := s.map Char.toLower

def jsToUpper (s : List Char) : List Char := s.map Char.toUpper

/-- Normalisation `(s).toLowerCase().replace(/[^0-9a-f]/g, '')` of the configured address. -/
def normalizeConfigMac (s : List Char) : List Char :=
  (jsToLower s).filter isHexLower

/-- Stripping `.replace(/:/g, '')`: only colons are removed from a discovered address. -/
def stripColons (s : List Char) : List Char :=
  s.filter (fun c => !(c == ':'))

/-- The comparison made by the discovery loop:
`addr.toUpperCase().replace(/:/g, '') === macAddress.toUpperCase()`,
where `mac` is the already-normalised `this.macAddress` field. -/
def discoveryMatches (addr mac : List Char) : Bool :=
  stripColons (jsToUpper addr) == jsToUpper mac

/-! ## Events, write modes and controller state -/

inductive WriteMode
  | request
  | command
deriving DecidableEq, Repr

/-- Externally visible events of one operation, in program order. -/
inductive Ev
  | logInfo
  | logWarn
  | logError
  | logDebug
  | connectTransport
  | gattGet
  | resolveService
  | resolveWriteChar
  | resolveNotifyChar
  | subscribeNotify
  | heartbeatStart
  | registerDisconnectObserver
  | writeValue (bytes : List Nat) (mode : WriteMode)
  | sleepMs (ms : Nat)
  | setSwitchOn (b : Bool)
  | scheduleAutoOff (ms : Nat)
  | schedulePushFalse (ms : Nat)
  | pushHostOn (b : Bool)
deriving DecidableEq, Repr

/-- The mutable per-accessory fields of `PushBotAccessory`. -/
structure BotState where
  isConnected : Bool
  writeChar : Option Nat
  notifyChar : Option Nat
  isSwitchOn : Bool
  heartbeatTimer : Bool
  observerArmed : Bool
deriving DecidableEq, Repr

/-- Field values right after the constructor ran. -/
def initState : BotState :=
  ⟨false, none, none, false, false, false⟩

/-- Result of one stateful operation: new state, event trace, and whether
the operation threw to its caller. -/
structure OpResult where
  st : BotState
  trace : List Ev
  threw : Bool
deriving DecidableEq, Repr

/-! ## Fixed constants (the `CONFIG` object, fields shared by both variants) -/

def WRITE_RETRY_COUNT : Nat := 3
def AUTO_OFF_MS : Nat := 1500
def GATT_WAIT_MS : Nat := 2000

/-! ## The write retry loop

```js
let success = false;
for (let i = 0; i < CONFIG.WRITE_RETRY_COUNT; i++) {
    try {
        await this.writeChar.writeValue(this.pushCommand, \x7b type \x7d);
        success = true;
        break;
    } catch (err) {
        this.log.warn(...);
        await sleep(500);
    }
}
```
`outcome i` tells whether the `writeValue` of loop iteration `i` succeeds. -/

def writeRetryLoop (outcome : Nat → Bool) (packet : List Nat) (mode : WriteMode) :
    Nat → Nat → List Ev × Bool
  | 0, _ => ([], false)
  | Nat.succ fuel, i =>
    if outcome i then
      ([Ev.writeValue packet mode], true)
    else
      let rest := writeRetryLoop outcome packet mode fuel (i + 1)
      (Ev.writeValue packet mode :: Ev.logWarn :: Ev.sleepMs 500 :: rest.1, rest.2)

def retrySegment (outcome : Nat → Bool) (packet : List Nat) (mode : WriteMode) :
    List Ev × Bool :=
  writeRetryLoop outcome packet mode WRITE_RETRY_COUNT 0

/-! ## Heartbeat helpers (variant V2 only) -/

/-- Embeds `if (this.heartbeatTimer) clearInterval(this.heartbeatTimer);`. -/
def clearHeartbeat (s : BotState) : BotState :=
  if s.heartbeatTimer then { s with heartbeatTimer := false } else s

/-- Embeds `startHeartbeat()`: clears any previous interval and schedules a new one. -/
def startHeartbeatSt (s : BotState) : BotState :=
  { clearHeartbeat s with heartbeatTimer := true }

/-! ## `connectDevice`

The fallible BLE calls of one run are summarised by a `ConnectOutcome`:
which call (if any) throws first, and, on full success, whether the
optional notify resolution/subscription succeeded. -/

inductive ConnectOutcome
  | failConnect
  | failService
  | failWriteChar
  | ok (notifyOk : Bool)
deriving DecidableEq, Repr

def connectFails : ConnectOutcome → Bool
  | .ok _ => false
  | _ => true

/-- Embeds `connectDevice` of `src/unnamed/part_000`: optimistic `isConnected = true`
right after the transport connect, GATT settle wait, service and write
characteristic resolution, optional notify + heartbeat (non-fatal), then the
one-shot disconnect observer.  The `catch` sets `isConnected = false` and
re-throws (`throw e`). -/
def connectDeviceV2 (s : BotState) (o : ConnectOutcome) : OpResult :=
  match o with
  | .failConnect =>
      ⟨{ s with isConnected := false }, [Ev.logInfo, Ev.connectTransport], true⟩
  | .failService =>
      ⟨{ s with isConnected := false },
        [Ev.logInfo, Ev.connectTransport, Ev.gattGet, Ev.sleepMs GATT_WAIT_MS,
         Ev.resolveService], true⟩
  | .failWriteChar =>
      ⟨{ s with isConnected := false },
        [Ev.logInfo, Ev.connectTransport, Ev.gattGet, Ev.sleepMs GATT_WAIT_MS,
         Ev.resolveService, Ev.resolveWriteChar], true⟩
  | .ok notifyOk =>
      let s1 := { s with isConnected := true, writeChar := some 0 }
      let s2 :=
        if notifyOk then
          { startHeartbeatSt { s1 with notifyChar := some 0 } with observerArmed := true }
        else
          { s1 with observerArmed := true }
      ⟨s2,
        [Ev.logInfo, Ev.connectTransport, Ev.gattGet, Ev.sleepMs GATT_WAIT_MS,
         Ev.resolveService, Ev.resolveWriteChar]
          ++ (if notifyOk then
                [Ev.resolveNotifyChar, Ev.subscribeNotify, Ev.heartbeatStart, Ev.logDebug]
              else [Ev.resolveNotifyChar, Ev.logWarn])
          ++ [Ev.logInfo, Ev.registerDisconnectObserver],
        false⟩

/-- Embeds `connectDevice` of `src/index.js`: same sequence without the notify
block; the `catch` logs the error, sets `isConnected = false` and swallows
the exception. -/
def connectDeviceV1 (s : BotState) (o : ConnectOutcome) : OpResult :=
  match o with
  | .failConnect =>
      ⟨{ s with isConnected := false }, [Ev.logInfo, Ev.connectTransport, Ev.logError], false⟩
  | .failService =>
      ⟨{ s with isConnected := false },
        [Ev.logInfo, Ev.connectTransport, Ev.gattGet, Ev.sleepMs GATT_WAIT_MS,
         Ev.resolveService, Ev.logError], false⟩
  | .failWriteChar =>
      ⟨{ s with isConnected := false },
        [Ev.logInfo, Ev.connectTransport, Ev.gattGet, Ev.sleepMs GATT_WAIT_MS,
         Ev.resolveService, Ev.resolveWriteChar, Ev.logError], false⟩
  | .ok _ =>
      ⟨{ s with isConnected := true, writeChar := some 0, observerArmed := true },
        [Ev.logInfo, Ev.connectTransport, Ev.gattGet, Ev.sleepMs GATT_WAIT_MS,
         Ev.resolveService, Ev.resolveWriteChar, Ev.logInfo,
         Ev.registerDisconnectObserver], false⟩

/-! ## Disconnect callback and timer bodies -/

/-- Body of the V2 `device.once('disconnect', ...)` callback. -/
def disconnectCallbackV2 (s : BotState) : BotState :=
  { s with isConnected := false, writeChar := none, heartbeatTimer := false,
           observerArmed := false }

/-- Body of the V1 `device.once('disconnect', ...)` callback (no heartbeat). -/
def disconnectCallbackV1 (s : BotState) : BotState :=
  { s with isConnected := false, writeChar := none, observerArmed := false }

/-- A transport-level disconnect event: the callback runs only when the
one-shot observer is currently armed. -/
def applyDisconnectV2 (s : BotState) : BotState :=
  if s.observerArmed then disconnectCallbackV2 s else s

def applyDisconnectV1 (s : BotState) : BotState :=
  if s.observerArmed then disconnectCallbackV1 s else s

/-- Body of the auto-off `setTimeout`: `this.isSwitchOn = false;
this.switchService.updateCharacteristic(Characteristic.On, false);`. -/
def autoOffFire (s : BotState) : BotState × Ev :=
  ({ s with isSwitchOn := false }, Ev.pushHostOn false)

/-- Body of the 500 ms not-connected `setTimeout` of V1: it only pushes `false`
to the host, without touching `isSwitchOn`. -/
def pushFalseFire (s : BotState) : BotState × Ev :=
  (s, Ev.pushHostOn false)

/-! ## `handleSetOn` -/

/-- Embeds `handleSetOn(value)` of `src/index.js`.  With `value` truthy:
if not connected or no write characteristic, log a warning, schedule a
500 ms push of `false` to the host and return; otherwise run the retry
loop (writes of kind `command`), set `isSwitchOn = true` on
success, and unconditionally schedule the auto-off timer. -/
def handleSetOnV1 (s : BotState) (packet : List Nat) (outcome : Nat → Bool)
    (value : Bool) : OpResult :=
  if value = false then ⟨s, [], false⟩
  else if !s.isConnected || s.writeChar.isNone then
    ⟨s, [Ev.logWarn, Ev.schedulePushFalse 500], false⟩
  else
    let r := retrySegment outcome packet WriteMode.command
    let s1 := if r.2 then { s with isSwitchOn := true } else s
    ⟨s1,
      Ev.logInfo :: r.1
        ++ (if r.2 then [Ev.logInfo, Ev.setSwitchOn true] else [])
        ++ [Ev.scheduleAutoOff AUTO_OFF_MS],
      false⟩

/-- The part of `handleSetOn` in V2 after a live connection is available:
cancel the heartbeat, log, 300 ms settle sleep, retry loop
(writes of kind `request`), set `isSwitchOn = true` on success,
restart the heartbeat. -/
def afterConnectV2 (s : BotState) (pre : List Ev) (packet : List Nat)
    (outcome : Nat → Bool) : OpResult :=
  let s1 := clearHeartbeat s
  let r := retrySegment outcome packet WriteMode.request
  let s2 := if r.2 then { s1 with isSwitchOn := true } else s1
  ⟨startHeartbeatSt s2,
    pre ++ [Ev.logInfo, Ev.sleepMs 300] ++ r.1
      ++ (if r.2 then [Ev.logInfo, Ev.setSwitchOn true] else [])
      ++ [Ev.heartbeatStart],
    false⟩

/-- Embeds `handleSetOn(value)` of `src/unnamed/part_000`.  First `if (!value) return;`,
then a `try` block: connect on demand when not connected or no write
characteristic (a failed connect re-throws into the `catch`, which logs);
then the write sequence.  The auto-off `setTimeout` sits after the
`catch`, so it is scheduled on every truthy activation. -/
def handleSetOnV2 (s : BotState) (packet : List Nat) (co : ConnectOutcome)
    (outcome : Nat → Bool) (value : Bool) : OpResult :=
  if value = false then ⟨s, [], false⟩
  else
    let inner : OpResult :=
      if !s.isConnected || s.writeChar.isNone then
        let c := connectDeviceV2 s co
        if c.threw then
          ⟨c.st, (Ev.logInfo :: c.trace) ++ [Ev.logError], false⟩
        else afterConnectV2 c.st (Ev.logInfo :: c.trace) packet outcome
      else afterConnectV2 s [] packet outcome
    ⟨inner.st, inner.trace ++ [Ev.scheduleAutoOff AUTO_OFF_MS], false⟩

/-! ## Trace observations -/

def isWriteEv : Ev → Bool
  | .writeValue _ _ => true
  | _ => false

def countWrites : List Ev → Nat
  | [] => 0
  | e :: tr => (if isWriteEv e then 1 else 0) + countWrites tr

def isSleep500 : Ev → Bool
  | .sleepMs n => n == 500
  | _ => false

def countSleep500 : List Ev → Nat
  | [] => 0
  | e :: tr => (if isSleep500 e then 1 else 0) + countSleep500 tr

def isAckWriteEv : Ev → Bool
  | .writeValue _ .request => true
  | _ => false

def isUnackWriteEv : Ev → Bool
  | .writeValue _ .command => true
  | _ => false

def hasAckWrite (tr : List Ev) : Bool := tr.any isAckWriteEv

def hasUnackWrite (tr : List Ev) : Bool := tr.any isUnackWriteEv

/-- Predicate `observerAfterResolve tr seen = true` iff every
`registerDisconnectObserver` occurrence in `tr` is preceded by a
`resolveWriteChar` (with `seen` recording whether one was already seen). -/
def observerAfterResolve : List Ev → Bool → Bool
  | [], _ => true
  | Ev.registerDisconnectObserver :: rest, seen => seen && observerAfterResolve rest seen
  | Ev.resolveWriteChar :: rest, _ => observerAfterResolve rest true
  | _ :: rest, seen => observerAfterResolve rest seen

/-! ## Registry and accessory construction -/

inductive JsError
  | typeError
deriving DecidableEq, Repr

/-- The raw per-device configuration record; `none` models an absent field. -/
structure RawConfig where
  name : Option String
  mac_address : Option String
  service_uuid : Option String
  write_uuid : Option String
  notify_uuid : Option String
  push_packet_hex : Option String
deriving DecidableEq, Repr

/-- Fallback `config.x || dflt` for string fields (absent or empty falls back). -/
def jsOrDefault (v : Option String) (dflt : String) : String :=
  match v with
  | none => dflt
  | some s => if s = "" then dflt else s

def toLowerStr (s : String) : String := String.mk (jsToLower s.data)

/-- The immutable fields computed by the `PushBotAccessory` constructor. -/
structure AccessoryFields where
  displayName : String
  macAddress : List Char
  serviceUuid : String
  writeUuid : String
  notifyUuid : Option String
  pushCommand : List Nat
deriving DecidableEq, Repr

/-- Constructor of `src/index.js` (no notify field).
`(config.service_uuid).toLowerCase()`, `(config.write_uuid).toLowerCase()`
and `Buffer.from(config.push_packet_hex, 'hex')` each throw a `TypeError`
when the field is absent; `config.name` and `config.mac_address` have `||`
fallbacks. -/
def mkAccessoryV1 (cfg : RawConfig) : Except JsError AccessoryFields :=
  match cfg.service_uuid with
  | none => .error .typeError
  | some svc =>
    match cfg.write_uuid with
    | none => .error .typeError
    | some wr =>
      match cfg.push_packet_hex with
      | none => .error .typeError
      | some hex =>
        .ok { displayName := jsOrDefault cfg.name "PushBot"
              macAddress := normalizeConfigMac (jsOrDefault cfg.mac_address "").data
              serviceUuid := toLowerStr svc
              writeUuid := toLowerStr wr
              notifyUuid := none
              pushCommand := bufferFromHexL hex.data }

/-- Constructor of `src/unnamed/part_000`:
`this.notifyUuid = (config.notify_uuid).toLowerCase();` has no guard, so an
absent `notify_uuid` throws before `pushCommand` is computed. -/
def mkAccessoryV2 (cfg : RawConfig) : Except JsError AccessoryFields :=
  match cfg.service_uuid with
  | none => .error .typeError
  | some svc =>
    match cfg.write_uuid with
    | none => .error .typeError
    | some wr =>
      match cfg.notify_uuid with
      | none => .error .typeError
      | some nt =>
        match cfg.push_packet_hex with
        | none => .error .typeError
        | some hex =>
          .ok { displayName := jsOrDefault cfg.name "PushBot"
                macAddress := normalizeConfigMac (jsOrDefault cfg.mac_address "").data
                serviceUuid := toLowerStr svc
                writeUuid := toLowerStr wr
                notifyUuid := some (toLowerStr nt)
                pushCommand := bufferFromHexL hex.data }

def isOkE {α β : Type} : Except α β → Bool
  | .ok _ => true
  | .error _ => false

/-- Embeds `discoverDevices`: a plain `for` loop with no `try/catch`, so the first
throwing constructor aborts the loop.  Returns the accessories actually
constructed (in list order) and whether the loop threw. -/
def discoverDevicesWith (mk : RawConfig → Except JsError AccessoryFields) :
    List RawConfig → List AccessoryFields × Bool
  | [] => ([], false)
  | c :: rest =>
    match mk c with
    | .error _ => ([], true)
    | .ok a =>
      let r := discoverDevicesWith mk rest
      (a :: r.1, r.2)

/-! ## Rendering relations for the amended MAC-matching claim -/

/-- Relation `AddrRender key addr`: `addr` spells the canonical lowercase-hex `key`
with arbitrary inserted colons and per-digit case choices — the shapes a
discovered address may take and still be recognised. -/
inductive AddrRender : List Char → List Char → Prop
  | nil : AddrRender [] []
  | colon {k a : List Char} : AddrRender k a → AddrRender k (':' :: a)
  | digit {k a : List Char} (d c : Char) :
      isHexLower d = true → (c = d ∨ c = d.toUpper) →
      AddrRender k a → AddrRender (d :: k) (c :: a)

/-- Relation `CfgRender key cfg`: `cfg` spells `key` with arbitrary inserted
punctuation (any character whose lowercase form is not a lowercase hex
digit) and per-digit case choices — what the normalisation in the constructor
accepts on the configured side. -/
inductive CfgRender : List Char → List Char → Prop
  | nil : CfgRender [] []
  | punct {k a : List Char} (c : Char) :
      isHexLower c.toLower = false → CfgRender k a → CfgRender k (c :: a)
  | digit {k a : List Char} (d c : Char) :
      isHexLower d = true → (c = d ∨ c = d.toUpper) →
      CfgRender k a → CfgRender (d :: k) (c :: a)

/-! ## Combined transition system for the state invariant -/

/-- One scheduler-granularity step of a controller: a discovery-loop
connect (guarded by `isConnected == false`), an activation request, a
disconnect event, or a timer firing — for either variant. -/
inductive Step : BotState → BotState → Prop
  | scanV1 {s : BotState} (o : ConnectOutcome) (h : s.isConnected = false) :
      Step s (connectDeviceV1 s o).st
  | scanV2 {s : BotState} (o : ConnectOutcome) (h : s.isConnected = false) :
      Step s (connectDeviceV2 s o).st
  | setOnV1 {s : BotState} (packet : List Nat) (outcome : Nat → Bool) (value : Bool) :
      Step s (handleSetOnV1 s packet outcome value).st
  | setOnV2 {s : BotState} (packet : List Nat) (co : ConnectOutcome)
      (outcome : Nat → Bool) (value : Bool) :
      Step s (handleSetOnV2 s packet co outcome value).st
  | disconnV1 {s : BotState} : Step s (applyDisconnectV1 s)
  | disconnV2 {s : BotState} : Step s (applyDisconnectV2 s)
  | autoOffT {s : BotState} : Step s (autoOffFire s).1
  | pushFalseT {s : BotState} : Step s (pushFalseFire s).1

/-- States reachable from construction by the operations of the controller. -/
def ReachableState (s : BotState) : Prop :=
  Relation.ReflTransGen Step initState s

/-! ## Concrete fixtures used by counterexamples and witnesses -/

/-- A connected controller with a resolved write handle. -/
def connState : BotState :=
  ⟨true, some 0, none, false, false, true⟩

/-- A disconnected controller (fresh from construction). -/
def discState : BotState := initState

/-- An attempt oracle that fails twice and succeeds on the third attempt. -/
def failFailOk : Nat → Bool := fun i => decide (i = 2)

/-- An attempt oracle that always fails. -/
def allFail : Nat → Bool := fun _ => false

/-- An attempt oracle that always succeeds. -/
def allOk : Nat → Bool := fun _ => true

/-- A fully populated configuration record. -/
def cfgGood : RawConfig :=
  ⟨some "Bot", some "AA:BB:CC:DD:EE:FF", some "FFE0", some "FFE1", some "FFE2",
   some "0102030f"⟩

def cfgBad : RawConfig := { cfgGood with service_uuid := none }

def cfgNoNotify : RawConfig := { cfgGood with notify_uuid := none }

/-! # Theorems -/

/-! ## Character-level facts about the hex digit class -/

theorem hexLower_facts (d : Char) (h : isHexLower d = true) :
    d.toUpper.toUpper = d.toUpper ∧ (d.toUpper == ':') = false ∧
      d.toLower = d ∧ d.toUpper.toLower = d := by
  unfold isHexLower at h
  have hm : d ∈ hexLowerChars := of_decide_eq_true h
  fin_cases hm <;> exact ⟨by decide, by decide, by decide, by decide⟩

theorem addrRender_eval {k a : List Char} (h : AddrRender k a) :
    stripColons (jsToUpper a) = jsToUpper k := by
  induction h with
  | nil => rfl
  | colon _ ih =>
      simpa [jsToUpper, stripColons] using ih
  | digit d c hd hc _ ih =>
      have hf := hexLower_facts d hd
      have hup : c.toUpper = d.toUpper := by
        rcases hc with rfl | rfl
        · rfl
        · exact hf.1
      have hne : (d.toUpper == ':') = false := hf.2.1
      simp only [jsToUpper, List.map_cons, stripColons, List.filter_cons, hup, hne,
        Bool.not_false, if_true] at ih ⊢
      simp only [List.cons.injEq, true_and]
      exact ih

theorem cfgRender_eval {k a : List Char} (h : CfgRender k a) :
    normalizeConfigMac a = k := by
  induction h with
  | nil => rfl
  | punct c hp _ ih =>
      simp only [normalizeConfigMac, jsToLower, List.map_cons, List.filter_cons, hp] at ih ⊢
      exact ih
  | digit d c hd hc _ ih =>
      have hf := hexLower_facts d hd
      have hlo : c.toLower = d := by
        rcases hc with rfl | rfl
        · exact hf.2.2.1
        · exact hf.2.2.2
      simp only [normalizeConfigMac, jsToLower, List.map_cons, List.filter_cons, hlo, hd] at ih ⊢
      exact congrArg (d :: ·) ih

/-- Claim C6 (counterexample): the configured address "aabbccddeeff" and the
discovered address "Aa-Bb-Cc-Dd-Ee-Ff" differ only in letter case and
punctuation, yet the comparison of the discovery loop does not declare them a
match, because only colons (not dashes) are stripped from a discovered
address. -/
theorem c6_counterexample :
    discoveryMatches
      ['A', 'a', '-', 'B', 'b', '-', 'C', 'c', '-', 'D', 'd', '-', 'E', 'e', '-', 'F', 'f']
      (normalizeConfigMac
        ['a', 'a', 'b', 'b', 'c', 'c', 'd', 'd', 'e', 'e', 'f', 'f']) = false := by
  decide

/-- Claim C6 (amended): the configured `mac_address` may use any letter case
and any punctuation, but a discovered address is recognised only when it
differs from the canonical hex key by letter case and colons alone; for
every such pair the comparison of the discovery loop declares a match. -/
theorem c6_mac_matching_amended {key addr cfg : List Char}
    (h1 : AddrRender key addr) (h2 : CfgRender key cfg) :
    discoveryMatches addr (normalizeConfigMac cfg) = true := by
  rw [discoveryMatches, cfgRender_eval h2, addrRender_eval h1]
  simp

theorem c6_witness :
    discoveryMatches
      ['A', 'A', ':', 'B', 'B', ':', 'C', 'C', ':', 'D', 'D', ':', 'E', 'E', ':', 'F', 'F']
      (normalizeConfigMac
        ['A', 'a', '-', 'B', 'b', '-', 'C', 'c', '-', 'D', 'd', '-', 'E', 'e', '-', 'F', 'f']) = true :=
  @c6_mac_matching_amended
    ['a', 'a', 'b', 'b', 'c', 'c', 'd', 'd', 'e', 'e', 'f', 'f']
    ['A', 'A', ':', 'B', 'B', ':', 'C', 'C', ':', 'D', 'D', ':', 'E', 'E', ':', 'F', 'F']
    ['A', 'a', '-', 'B', 'b', '-', 'C', 'c', '-', 'D', 'd', '-', 'E', 'e', '-', 'F', 'f']
    (by repeat
          first
          | exact AddrRender.nil
          | apply AddrRender.colon
          | refine AddrRender.digit _ _ (by decide) (by decide) ?_)
    (by repeat
          first
          | exact CfgRender.nil
          | refine CfgRender.punct _ (by decide) ?_
          | refine CfgRender.digit _ _ (by decide) (by decide) ?_)

/-! ## State-helper projection lemmas -/

theorem clearHeartbeat_eq (s : BotState) :
    clearHeartbeat s = { s with heartbeatTimer := false } := by
  unfold clearHeartbeat
  split
  · rfl
  · rename_i h
    have hb : s.heartbeatTimer = false := by simpa using h
    cases s
    simp_all

theorem startHeartbeatSt_eq (s : BotState) :
    startHeartbeatSt s = { s with heartbeatTimer := true } := by
  rw [startHeartbeatSt, clearHeartbeat_eq]

/-! ## Retry-loop lemmas -/

theorem countWrites_append (t1 t2 : List Ev) :
    countWrites (t1 ++ t2) = countWrites t1 + countWrites t2 := by
  induction t1 with
  | nil => simp [countWrites]
  | cons e tr ih => simp [countWrites, ih]; omega

theorem countSleep500_append (t1 t2 : List Ev) :
    countSleep500 (t1 ++ t2) = countSleep500 t1 + countSleep500 t2 := by
  induction t1 with
  | nil => simp [countSleep500]
  | cons e tr ih => simp [countSleep500, ih]; omega

theorem writeRetryLoop_count_le (outcome : Nat → Bool) (packet : List Nat)
    (mode : WriteMode) :
    ∀ fuel i, countWrites (writeRetryLoop outcome packet mode fuel i).1 ≤ fuel := by
  intro fuel
  induction fuel with
  | zero => intro i; simp [writeRetryLoop, countWrites]
  | succ n ih =>
      intro i
      by_cases h : outcome i
      · simp [writeRetryLoop, h, countWrites, isWriteEv]
      · have hrec := ih (i + 1)
        simp [writeRetryLoop, h, countWrites, isWriteEv]
        omega

/-- Full evaluation of the three-attempt retry loop by the first three
outcomes. -/
theorem retrySegment_eval (outcome : Nat → Bool) (packet : List Nat) (mode : WriteMode) :
    retrySegment outcome packet mode =
      if outcome 0 then ([Ev.writeValue packet mode], true)
      else if outcome 1 then
        ([Ev.writeValue packet mode, Ev.logWarn, Ev.sleepMs 500,
          Ev.writeValue packet mode], true)
      else if outcome 2 then
        ([Ev.writeValue packet mode, Ev.logWarn, Ev.sleepMs 500,
          Ev.writeValue packet mode, Ev.logWarn, Ev.sleepMs 500,
          Ev.writeValue packet mode], true)
      else
        ([Ev.writeValue packet mode, Ev.logWarn, Ev.sleepMs 500,
          Ev.writeValue packet mode, Ev.logWarn, Ev.sleepMs 500,
          Ev.writeValue packet mode, Ev.logWarn, Ev.sleepMs 500], false) := by
  by_cases h0 : outcome 0 <;> by_cases h1 : outcome 1 <;> by_cases h2 : outcome 2 <;>
    simp [retrySegment, WRITE_RETRY_COUNT, writeRetryLoop, h0, h1, h2]

/-- Shared shape of the claims about the write behaviour of one activation:
number of write attempts, number of 500 ms backoff sleeps, and the value of
`switchOn` right after the handler (before the auto-off timer fires). -/
def RetryBehaviour (res : OpResult) (writes sleeps : Nat) (switch : Bool) : Prop :=
  countWrites res.trace = writes ∧ countSleep500 res.trace = sleeps ∧
    res.st.isSwitchOn = switch

/-- Claim C1: on a connected controller with a resolved write handle, an
activation with value `true` attempts the push write at most 3 times with a
500 ms backoff after each failed attempt, the first success short-circuits
the remaining attempts and sets `switchOn = true`; in particular the
fail/fail/succeed oracle yields exactly 3 write attempts, 2 backoff sleeps
and `switchOn = true` — in both source variants. -/
theorem c1_retry_semantics (s : BotState) (packet : List Nat) (co : ConnectOutcome)
    (outcome : Nat → Bool)
    (hc : s.isConnected = true) (hw : s.writeChar.isSome = true)
    (h0 : outcome 0 = false) (h1 : outcome 1 = false) (h2 : outcome 2 = true) :
    RetryBehaviour (handleSetOnV1 s packet outcome true) 3 2 true
    ∧ RetryBehaviour (handleSetOnV2 s packet co outcome true) 3 2 true
    ∧ (∀ o2 : Nat → Bool,
        countWrites (handleSetOnV1 s packet o2 true).trace ≤ WRITE_RETRY_COUNT
        ∧ countWrites (handleSetOnV2 s packet co o2 true).trace ≤ WRITE_RETRY_COUNT)
    ∧ (∀ o2 : Nat → Bool, ∀ k, k < WRITE_RETRY_COUNT →
        (∀ j, j < k → o2 j = false) → o2 k = true →
        countWrites (handleSetOnV1 s packet o2 true).trace = k + 1
        ∧ (handleSetOnV1 s packet o2 true).st.isSwitchOn = true
        ∧ countWrites (handleSetOnV2 s packet co o2 true).trace = k + 1
        ∧ (handleSetOnV2 s packet co o2 true).st.isSwitchOn = true) := by
  obtain ⟨w, hw'⟩ := Option.isSome_iff_exists.mp hw
  refine ⟨?_, ?_, ?_, ?_⟩
  · simp [RetryBehaviour, handleSetOnV1, hc, hw', retrySegment_eval, h0, h1, h2,
      countWrites, countSleep500, isWriteEv, isSleep500]
  · simp [RetryBehaviour, handleSetOnV2, afterConnectV2, startHeartbeatSt_eq,
      clearHeartbeat_eq, hc, hw', retrySegment_eval, h0, h1, h2,
      countWrites, countSleep500, isWriteEv, isSleep500, countWrites_append,
      countSleep500_append]
  · intro o2
    constructor
    · have hle := writeRetryLoop_count_le o2 packet WriteMode.command WRITE_RETRY_COUNT 0
      by_cases hs : (writeRetryLoop o2 packet WriteMode.command WRITE_RETRY_COUNT 0).2 <;>
        simp [handleSetOnV1, hc, hw', retrySegment, hs, countWrites, countWrites_append,
          isWriteEv] <;>
        omega
    · have hle := writeRetryLoop_count_le o2 packet WriteMode.request WRITE_RETRY_COUNT 0
      by_cases hs : (writeRetryLoop o2 packet WriteMode.request WRITE_RETRY_COUNT 0).2 <;>
        simp [handleSetOnV2, afterConnectV2, hc, hw', retrySegment, hs, countWrites,
          countWrites_append, isWriteEv] <;>
        omega
  · intro o2 k hk hfail hsucc
    simp only [WRITE_RETRY_COUNT] at hk
    interval_cases k
    · simp [handleSetOnV1, handleSetOnV2, afterConnectV2, startHeartbeatSt_eq,
        clearHeartbeat_eq, hc, hw', retrySegment_eval, hsucc, countWrites,
        countWrites_append, isWriteEv]
    · have hf0 : o2 0 = false := hfail 0 (by omega)
      simp [handleSetOnV1, handleSetOnV2, afterConnectV2, startHeartbeatSt_eq,
        clearHeartbeat_eq, hc, hw', retrySegment_eval, hf0, hsucc, countWrites,
        countWrites_append, isWriteEv]
    · have hf0 : o2 0 = false := hfail 0 (by omega)
      have hf1 : o2 1 = false := hfail 1 (by omega)
      simp [handleSetOnV1, handleSetOnV2, afterConnectV2, startHeartbeatSt_eq,
        clearHeartbeat_eq, hc, hw', retrySegment_eval, hf0, hf1, hsucc, countWrites,
        countWrites_append, isWriteEv]

theorem c1_witness :
    RetryBehaviour (handleSetOnV1 connState [1, 2, 3, 15] failFailOk true) 3 2 true :=
  (c1_retry_semantics connState [1, 2, 3, 15] (ConnectOutcome.ok true) failFailOk
    rfl rfl rfl rfl rfl).1

/-- Claim C3: when all 3 write attempts fail, `switchOn` is never set to
`true` (it is `false` after the handler and still `false` once the auto-off
timer fires) and the activation handler does not throw to the host — in
both source variants. -/
theorem c3_exhausted_write (s : BotState) (packet : List Nat) (co : ConnectOutcome)
    (outcome : Nat → Bool)
    (hc : s.isConnected = true) (hw : s.writeChar.isSome = true)
    (hsw : s.isSwitchOn = false)
    (h0 : outcome 0 = false) (h1 : outcome 1 = false) (h2 : outcome 2 = false) :
    (handleSetOnV1 s packet outcome true).st.isSwitchOn = false
    ∧ (handleSetOnV2 s packet co outcome true).st.isSwitchOn = false
    ∧ (autoOffFire (handleSetOnV1 s packet outcome true).st).1.isSwitchOn = false
    ∧ (autoOffFire (handleSetOnV2 s packet co outcome true).st).1.isSwitchOn = false
    ∧ Ev.setSwitchOn true ∉ (handleSetOnV1 s packet outcome true).trace
    ∧ Ev.setSwitchOn true ∉ (handleSetOnV2 s packet co outcome true).trace
    ∧ (handleSetOnV1 s packet outcome true).threw = false
    ∧ (handleSetOnV2 s packet co outcome true).threw = false := by
  refine ⟨?_, ?_, ?_, ?_, ?_, ?_, ?_, ?_⟩ <;>
    · obtain ⟨w, hw'⟩ := Option.isSome_iff_exists.mp hw
      simp [handleSetOnV1, handleSetOnV2, afterConnectV2, startHeartbeatSt_eq,
        clearHeartbeat_eq, autoOffFire, hc, hw', hsw, retrySegment_eval, h0, h1, h2]

theorem c3_witness :
    (handleSetOnV1 connState [1, 2, 3, 15] allFail true).st.isSwitchOn = false
    ∧ (handleSetOnV2 connState [1, 2, 3, 15] (ConnectOutcome.ok true) allFail
        true).threw = false :=
  ⟨(c3_exhausted_write connState [1, 2, 3, 15] (ConnectOutcome.ok true) allFail
      rfl rfl rfl rfl rfl rfl).1,
   (c3_exhausted_write connState [1, 2, 3, 15] (ConnectOutcome.ok true) allFail
      rfl rfl rfl rfl rfl rfl).2.2.2.2.2.2.2⟩

/-- Claim C4: every activation that reaches the write stage schedules the
auto-off timer with the fixed 1500 ms delay, whatever the write outcomes;
when that timer fires it sets `switchOn = false` and pushes `false` to the
host-exposure collaborator — in both source variants. -/
theorem c4_auto_off_scheduled (s : BotState) (packet : List Nat) (co : ConnectOutcome)
    (outcome : Nat → Bool)
    (hc : s.isConnected = true) (hw : s.writeChar.isSome = true) :
    Ev.scheduleAutoOff AUTO_OFF_MS ∈ (handleSetOnV1 s packet outcome true).trace
    ∧ Ev.scheduleAutoOff AUTO_OFF_MS ∈ (handleSetOnV2 s packet co outcome true).trace
    ∧ AUTO_OFF_MS = 1500
    ∧ (∀ t : BotState,
        (autoOffFire t).1.isSwitchOn = false ∧ (autoOffFire t).2 = Ev.pushHostOn false) := by
  obtain ⟨w, hw'⟩ := Option.isSome_iff_exists.mp hw
  refine ⟨?_, ?_, rfl, fun t => ⟨rfl, rfl⟩⟩
  · simp [handleSetOnV1, hc, hw']
  · simp [handleSetOnV2, afterConnectV2, hc, hw']

theorem c4_witness :
    Ev.scheduleAutoOff AUTO_OFF_MS
      ∈ (handleSetOnV1 connState [1, 2, 3, 15] allOk true).trace :=
  (c4_auto_off_scheduled connState [1, 2, 3, 15] (ConnectOutcome.ok true) allOk
    rfl rfl).1

/-! ## Write-payload lemmas -/

theorem writeRetryLoop_writes_shape (outcome : Nat → Bool) (packet : List Nat)
    (mode : WriteMode) :
    ∀ fuel i b m, Ev.writeValue b m ∈ (writeRetryLoop outcome packet mode fuel i).1 →
      b = packet ∧ m = mode := by
  intro fuel
  induction fuel with
  | zero => intro i b m h; simp [writeRetryLoop] at h
  | succ n ih =>
      intro i b m h
      by_cases ho : outcome i
      · simp [writeRetryLoop, ho] at h
        exact h
      · simp [writeRetryLoop, ho] at h
        rcases h with h | h
        · exact h
        · exact ih (i + 1) b m h

/-- Claim C2 (counterexample): in the `src/index.js` variant, a successful
activation issues its push write in `command` mode — an
unacknowledged write — and no acknowledged (`request`) write ever appears
in the trace, contradicting the claim that every attempt is issued as a
confirmed (acknowledged) write. -/
theorem c2_counterexample :
    hasUnackWrite (handleSetOnV1 connState [1, 2, 3, 15] allOk true).trace = true
    ∧ hasAckWrite (handleSetOnV1 connState [1, 2, 3, 15] allOk true).trace = false := by
  decide

/-- Claim C2 (amended): every write attempt, including every retry, passes
exactly the byte sequence obtained by hex-decoding the configured
`push_packet_hex` at construction (for "0102030f" exactly the bytes
1, 2, 3, 0x0f), unmodified; the `src/unnamed/part_000` variant issues it as
a confirmed (`request`) write, while the `src/index.js` variant issues it
as an unacknowledged (`command`) write. -/
theorem c2_push_packet_bytes (hex : String) (s : BotState) (co : ConnectOutcome)
    (outcome : Nat → Bool)
    (hc : s.isConnected = true) (hw : s.writeChar.isSome = true) :
    (∀ b m, Ev.writeValue b m ∈ (handleSetOnV1 s (bufferFromHex hex) outcome true).trace →
        b = bufferFromHex hex ∧ m = WriteMode.command)
    ∧ (∀ b m, Ev.writeValue b m ∈ (handleSetOnV2 s (bufferFromHex hex) co outcome true).trace →
        b = bufferFromHex hex ∧ m = WriteMode.request)
    ∧ bufferFromHex "0102030f" = [1, 2, 3, 15] := by
  obtain ⟨w, hw'⟩ := Option.isSome_iff_exists.mp hw
  refine ⟨?_, ?_, by decide⟩
  · intro b m hmem
    by_cases hs : (writeRetryLoop outcome (bufferFromHex hex) WriteMode.command
        WRITE_RETRY_COUNT 0).2 <;>
      simp [handleSetOnV1, hc, hw', retrySegment, hs] at hmem <;>
      exact writeRetryLoop_writes_shape outcome _ _ _ _ b m hmem
  · intro b m hmem
    by_cases hs : (writeRetryLoop outcome (bufferFromHex hex) WriteMode.request
        WRITE_RETRY_COUNT 0).2 <;>
      simp [handleSetOnV2, afterConnectV2, hc, hw', retrySegment, hs] at hmem <;>
      exact writeRetryLoop_writes_shape outcome _ _ _ _ b m hmem

theorem c2_witness :
    [1, 2, 3, 15] = bufferFromHex "0102030f" ∧ WriteMode.request = WriteMode.request :=
  (c2_push_packet_bytes "0102030f" connState (ConnectOutcome.ok true) allOk rfl rfl).2.1
    [1, 2, 3, 15] WriteMode.request (by decide)

/-- Claim C5 (counterexample): in the `src/index.js` variant, an activation
with value `true` on a disconnected controller attempts no connect at all —
the handler logs, schedules a 500 ms push of `false` to the host, and
returns without a single write — contradicting the claim that the
controller attempts an immediate connect before proceeding. -/
theorem c5_counterexample :
    Ev.connectTransport ∉ (handleSetOnV1 discState [1, 2, 3, 15] allOk true).trace
    ∧ countWrites (handleSetOnV1 discState [1, 2, 3, 15] allOk true).trace = 0
    ∧ Ev.schedulePushFalse 500 ∈ (handleSetOnV1 discState [1, 2, 3, 15] allOk true).trace := by
  decide

/-- Claim C5 (amended): on an activation with value `true` while not
connected (or with no write handle), the `src/unnamed/part_000` variant
attempts an immediate connect before the write; if that connect fails the
whole operation is aborted with an error log, no write is attempted,
`switchOn` stays `false`, and nothing is thrown to the host.  The
`src/index.js` variant attempts no connect at all: it aborts immediately
with a warning log, leaves its state unchanged, and attempts no write. -/
theorem c5_on_demand_connect (s : BotState) (packet : List Nat) (co : ConnectOutcome)
    (outcome : Nat → Bool)
    (hdisc : s.isConnected = false ∨ s.writeChar.isNone = true)
    (hsw : s.isSwitchOn = false) (hfail : connectFails co = true) :
    Ev.connectTransport ∈ (handleSetOnV2 s packet co outcome true).trace
    ∧ countWrites (handleSetOnV2 s packet co outcome true).trace = 0
    ∧ (handleSetOnV2 s packet co outcome true).st.isSwitchOn = false
    ∧ Ev.logError ∈ (handleSetOnV2 s packet co outcome true).trace
    ∧ (handleSetOnV2 s packet co outcome true).threw = false
    ∧ Ev.connectTransport ∉ (handleSetOnV1 s packet outcome true).trace
    ∧ countWrites (handleSetOnV1 s packet outcome true).trace = 0
    ∧ Ev.logWarn ∈ (handleSetOnV1 s packet outcome true).trace
    ∧ (handleSetOnV1 s packet outcome true).st = s := by
  have hguard : (!s.isConnected || s.writeChar.isNone) = true := by
    rcases hdisc with h | h <;> simp [h]
  cases co <;>
    simp_all [handleSetOnV2, handleSetOnV1, connectDeviceV2, connectFails, hguard, hsw,
      countWrites, countWrites_append, isWriteEv]

theorem c5_witness :
    Ev.connectTransport
      ∈ (handleSetOnV2 discState [1, 2, 3, 15] ConnectOutcome.failConnect allOk true).trace
    ∧ (handleSetOnV2 discState [1, 2, 3, 15] ConnectOutcome.failConnect allOk
        true).st.isSwitchOn = false :=
  ⟨(c5_on_demand_connect discState [1, 2, 3, 15] ConnectOutcome.failConnect allOk
      (Or.inl rfl) rfl rfl).1,
   (c5_on_demand_connect discState [1, 2, 3, 15] ConnectOutcome.failConnect allOk
      (Or.inl rfl) rfl rfl).2.2.1⟩

/-! ## Registry lemmas -/

theorem discoverDevicesWith_all_ok (mk : RawConfig → Except JsError AccessoryFields) :
    ∀ cfgs : List RawConfig, (∀ x ∈ cfgs, isOkE (mk x) = true) →
      (discoverDevicesWith mk cfgs).2 = false
      ∧ (discoverDevicesWith mk cfgs).1.length = cfgs.length := by
  intro cfgs
  induction cfgs with
  | nil => intro _; simp [discoverDevicesWith]
  | cons c rest ih =>
      intro hall
      have hc := hall c (List.mem_cons_self c rest)
      have hrest := ih (fun x hx => hall x (List.mem_cons_of_mem c hx))
      cases hmk : mk c with
      | error e => simp [isOkE, hmk] at hc
      | ok a => simp [discoverDevicesWith, hmk, hrest.1, hrest.2]

theorem discoverDevicesWith_abort (mk : RawConfig → Except JsError AccessoryFields)
    (c : RawConfig) (hc : isOkE (mk c) = false) :
    ∀ pre : List RawConfig, (∀ x ∈ pre, isOkE (mk x) = true) → ∀ post : List RawConfig,
      (discoverDevicesWith mk (pre ++ c :: post)).2 = true
      ∧ (discoverDevicesWith mk (pre ++ c :: post)).1.length = pre.length := by
  intro pre
  induction pre with
  | nil =>
      intro _ post
      cases hmk : mk c with
      | error e => simp [discoverDevicesWith, hmk]
      | ok a => simp [isOkE, hmk] at hc
  | cons p rest ih =>
      intro hall post
      have hp := hall p (List.mem_cons_self p rest)
      cases hmk : mk p with
      | error e => simp [isOkE, hmk] at hp
      | ok a =>
          have hr := ih (fun x hx => hall x (List.mem_cons_of_mem p hx)) post
          simp [discoverDevicesWith, hmk, hr.1, hr.2]

/-- Claim C8 (counterexample): with a device list of two entries where the
first lacks `service_uuid` (its constructor throws) and the second is fully
valid, the registry loop constructs zero controllers and throws out of
`discoverDevices` — the controller of the second entry is not constructed, in
either variant. -/
theorem c8_counterexample :
    isOkE (mkAccessoryV2 cfgGood) = true
    ∧ (discoverDevicesWith mkAccessoryV2 [cfgBad, cfgGood]).1.length = 0
    ∧ (discoverDevicesWith mkAccessoryV2 [cfgBad, cfgGood]).2 = true
    ∧ (discoverDevicesWith mkAccessoryV1 [cfgBad, cfgGood]).1.length = 0
    ∧ (discoverDevicesWith mkAccessoryV1 [cfgBad, cfgGood]).2 = true := by
  decide

/-- Claim C8 (amended): the registry constructs one controller per entry in
list order as long as every constructor succeeds, but an error thrown
during the construction of one entry escapes the unguarded `for` loop and
prevents the controllers of all remaining entries from being constructed. -/
theorem c8_registry_abort (mk : RawConfig → Except JsError AccessoryFields)
    (pre post : List RawConfig) (c : RawConfig)
    (hpre : ∀ x ∈ pre, isOkE (mk x) = true) (hc : isOkE (mk c) = false) :
    (discoverDevicesWith mk (pre ++ c :: post)).2 = true
    ∧ (discoverDevicesWith mk (pre ++ c :: post)).1.length = pre.length
    ∧ (∀ cfgs : List RawConfig, (∀ x ∈ cfgs, isOkE (mk x) = true) →
        (discoverDevicesWith mk cfgs).2 = false
        ∧ (discoverDevicesWith mk cfgs).1.length = cfgs.length) :=
  ⟨(discoverDevicesWith_abort mk c hc pre hpre post).1,
   (discoverDevicesWith_abort mk c hc pre hpre post).2,
   discoverDevicesWith_all_ok mk⟩

theorem c8_witness :
    (discoverDevicesWith mkAccessoryV2 ([cfgGood] ++ cfgBad :: [cfgGood])).2 = true
    ∧ (discoverDevicesWith mkAccessoryV2 ([cfgGood] ++ cfgBad :: [cfgGood])).1.length = 1 :=
  ⟨(c8_registry_abort mkAccessoryV2 [cfgGood] [cfgGood] cfgBad (by decide) (by decide)).1,
   (c8_registry_abort mkAccessoryV2 [cfgGood] [cfgGood] cfgBad (by decide) (by decide)).2.1⟩

/-- Claim C9 (counterexample): with `notify_uuid` absent (all other fields
present and valid), the `src/unnamed/part_000` constructor throws — the
controller is not constructed at all, rather than operating with the
heartbeat disabled.  (The `src/index.js` constructor, which has no notify
path, succeeds on the same configuration.) -/
theorem c9_counterexample :
    isOkE (mkAccessoryV2 cfgNoNotify) = false
    ∧ isOkE (mkAccessoryV1 cfgNoNotify) = true := by
  decide

/-- Claim C9 (amended): in the heartbeat variant, `notify_uuid` is required
at construction: its absence throws a `TypeError` and no controller is
created, while a present `notify_uuid` lets construction succeed.  Once
constructed, connect-time notify behaviour matches the claim: successful
notify resolution/subscription enables the heartbeat, and a notify failure
is non-fatal — the connection still completes with the heartbeat disabled.
The `src/index.js` variant ignores `notify_uuid` entirely. -/
theorem c9_notify_required (cfg : RawConfig) (su wu hx : String) (s : BotState)
    (h1 : cfg.service_uuid = some su) (h2 : cfg.write_uuid = some wu)
    (h3 : cfg.push_packet_hex = some hx) :
    (cfg.notify_uuid.isSome = true → isOkE (mkAccessoryV2 cfg) = true)
    ∧ (cfg.notify_uuid = none → isOkE (mkAccessoryV2 cfg) = false)
    ∧ isOkE (mkAccessoryV1 cfg) = true
    ∧ ((connectDeviceV2 s (ConnectOutcome.ok true)).st.heartbeatTimer = true
        ∧ Ev.heartbeatStart ∈ (connectDeviceV2 s (ConnectOutcome.ok true)).trace
        ∧ (connectDeviceV2 s (ConnectOutcome.ok true)).threw = false)
    ∧ ((connectDeviceV2 s (ConnectOutcome.ok false)).threw = false
        ∧ (connectDeviceV2 s (ConnectOutcome.ok false)).st.isConnected = true
        ∧ (connectDeviceV2 s (ConnectOutcome.ok false)).st.writeChar.isSome = true
        ∧ (connectDeviceV2 s (ConnectOutcome.ok false)).st.heartbeatTimer = s.heartbeatTimer
        ∧ Ev.heartbeatStart ∉ (connectDeviceV2 s (ConnectOutcome.ok false)).trace) := by
  refine ⟨?_, ?_, ?_, ?_, ?_⟩
  · intro hn
    obtain ⟨nu, hnu⟩ := Option.isSome_iff_exists.mp hn
    simp [mkAccessoryV2, h1, h2, h3, hnu, isOkE]
  · intro hn
    simp [mkAccessoryV2, h1, h2, hn, isOkE]
  · simp [mkAccessoryV1, h1, h2, h3, isOkE]
  · exact ⟨by simp [connectDeviceV2, startHeartbeatSt_eq], by simp [connectDeviceV2], rfl⟩
  · refine ⟨rfl, by simp [connectDeviceV2], by simp [connectDeviceV2], rfl,
      by simp [connectDeviceV2]⟩

theorem c9_witness :
    isOkE (mkAccessoryV2 cfgGood) = true
    ∧ (connectDeviceV2 initState (ConnectOutcome.ok true)).st.heartbeatTimer = true :=
  ⟨(c9_notify_required cfgGood "FFE0" "FFE1" "0102030f" initState rfl rfl rfl).1 rfl,
   (c9_notify_required cfgGood "FFE0" "FFE1" "0102030f" initState rfl rfl rfl).2.2.2.1.1⟩

/-- Claim C10: in both variants, the one-shot disconnect observer is
registered only after the write characteristic has been resolved; on a run
where the transport connect succeeds but service or write-characteristic
resolution fails, no observer is installed, so a disconnect event arriving
during the connect sequence (e.g. in the GATT settle wait) leaves the
state of the controller untouched. -/
theorem c10_observer_after_resolve (s : BotState) (o : ConnectOutcome)
    (h : o = ConnectOutcome.failService ∨ o = ConnectOutcome.failWriteChar) :
    Ev.registerDisconnectObserver ∉ (connectDeviceV2 s o).trace
    ∧ (connectDeviceV2 s o).st.observerArmed = s.observerArmed
    ∧ (s.observerArmed = false →
        applyDisconnectV2 ((connectDeviceV2 s o).st) = (connectDeviceV2 s o).st)
    ∧ Ev.registerDisconnectObserver ∉ (connectDeviceV1 s o).trace
    ∧ (connectDeviceV1 s o).st.observerArmed = s.observerArmed
    ∧ (∀ o2 : ConnectOutcome,
        observerAfterResolve (connectDeviceV2 s o2).trace false = true
        ∧ observerAfterResolve (connectDeviceV1 s o2).trace false = true) := by
  refine ⟨?_, ?_, ?_, ?_, ?_, ?_⟩
  · rcases h with rfl | rfl <;> simp [connectDeviceV2]
  · rcases h with rfl | rfl <;> simp [connectDeviceV2]
  · intro harm
    rcases h with rfl | rfl <;> simp [connectDeviceV2, applyDisconnectV2, harm]
  · rcases h with rfl | rfl <;> simp [connectDeviceV1]
  · rcases h with rfl | rfl <;> simp [connectDeviceV1]
  · intro o2
    cases o2 with
    | ok nk => cases nk <;> exact ⟨rfl, rfl⟩
    | failConnect => exact ⟨rfl, rfl⟩
    | failService => exact ⟨rfl, rfl⟩
    | failWriteChar => exact ⟨rfl, rfl⟩

theorem c10_witness :
    Ev.registerDisconnectObserver
      ∉ (connectDeviceV2 initState ConnectOutcome.failService).trace
    ∧ applyDisconnectV2 ((connectDeviceV2 initState ConnectOutcome.failService).st)
        = (connectDeviceV2 initState ConnectOutcome.failService).st := by
  have h := c10_observer_after_resolve initState ConnectOutcome.failService (Or.inl rfl)
  exact ⟨h.1, h.2.2.1 rfl⟩

/-! ## The write-handle invariant -/

/-- The claimed invariant: the write handle is set only while connected. -/
def WriteHandleInv (s : BotState) : Prop :=
  s.writeChar.isSome = true → s.isConnected = true

theorem inv_disconnected_no_handle {s : BotState} (hinv : WriteHandleInv s)
    (hc : s.isConnected = false) : s.writeChar = none := by
  cases hw : s.writeChar with
  | none => rfl
  | some w =>
      have hct := hinv (by simp [hw])
      simp [hct] at hc

theorem connectDeviceV2_inv (s : BotState) (o : ConnectOutcome)
    (hw : s.writeChar = none) : WriteHandleInv (connectDeviceV2 s o).st := by
  intro hsome
  cases o with
  | failConnect => simp [connectDeviceV2, hw] at hsome
  | failService => simp [connectDeviceV2, hw] at hsome
  | failWriteChar => simp [connectDeviceV2, hw] at hsome
  | ok nk => cases nk <;> simp [connectDeviceV2, startHeartbeatSt_eq]

theorem connectDeviceV1_inv (s : BotState) (o : ConnectOutcome)
    (hw : s.writeChar = none) : WriteHandleInv (connectDeviceV1 s o).st := by
  intro hsome
  cases o with
  | failConnect => simp [connectDeviceV1, hw] at hsome
  | failService => simp [connectDeviceV1, hw] at hsome
  | failWriteChar => simp [connectDeviceV1, hw] at hsome
  | ok nk => simp [connectDeviceV1]

theorem handleSetOnV1_fields (s : BotState) (p : List Nat) (o : Nat → Bool) (v : Bool) :
    (handleSetOnV1 s p o v).st.writeChar = s.writeChar
    ∧ (handleSetOnV1 s p o v).st.isConnected = s.isConnected := by
  unfold handleSetOnV1
  split
  · exact ⟨rfl, rfl⟩
  · split
    · exact ⟨rfl, rfl⟩
    · simp only
      split <;> exact ⟨rfl, rfl⟩

theorem afterConnectV2_fields (s : BotState) (pre : List Ev) (p : List Nat)
    (o : Nat → Bool) :
    (afterConnectV2 s pre p o).st.writeChar = s.writeChar
    ∧ (afterConnectV2 s pre p o).st.isConnected = s.isConnected := by
  unfold afterConnectV2
  simp only [startHeartbeatSt_eq, clearHeartbeat_eq]
  split <;> exact ⟨rfl, rfl⟩

theorem handleSetOnV2_inv (s : BotState) (p : List Nat) (co : ConnectOutcome)
    (o : Nat → Bool) (v : Bool) (hinv : WriteHandleInv s) :
    WriteHandleInv (handleSetOnV2 s p co o v).st := by
  unfold handleSetOnV2
  split
  · exact hinv
  · by_cases hg : (!s.isConnected || s.writeChar.isNone) = true
    · have hwnone : s.writeChar = none := by
        cases hw : s.writeChar with
        | none => rfl
        | some w =>
            have hct := hinv (by simp [hw])
            simp [hct, hw] at hg
      have hcinv := connectDeviceV2_inv s co hwnone
      simp only [hg, if_true]
      split
      · exact hcinv
      · intro hsome
        have hf := afterConnectV2_fields (connectDeviceV2 s co).st
          (Ev.logInfo :: (connectDeviceV2 s co).trace) p o
        rw [hf.2]
        exact hcinv (by rw [← hf.1]; exact hsome)
    · have hg' : (!s.isConnected || s.writeChar.isNone) = false := by
        simp only [Bool.not_eq_true] at hg
        exact hg
      simp only [hg', if_false, Bool.false_eq_true]
      intro hsome
      have hf := afterConnectV2_fields s [] p o
      rw [hf.2]
      exact hinv (by rw [← hf.1]; exact hsome)

theorem step_preserves_inv {s t : BotState} (hstep : Step s t)
    (hinv : WriteHandleInv s) : WriteHandleInv t := by
  cases hstep with
  | scanV1 o h => exact connectDeviceV1_inv s o (inv_disconnected_no_handle hinv h)
  | scanV2 o h => exact connectDeviceV2_inv s o (inv_disconnected_no_handle hinv h)
  | setOnV1 p oc v =>
      intro hsome
      have hf := handleSetOnV1_fields s p oc v
      rw [hf.2]
      exact hinv (by rw [← hf.1]; exact hsome)
  | setOnV2 p co oc v => exact handleSetOnV2_inv s p co oc v hinv
  | disconnV1 =>
      unfold applyDisconnectV1
      split
      · intro hsome; simp [disconnectCallbackV1] at hsome
      · exact hinv
  | disconnV2 =>
      unfold applyDisconnectV2
      split
      · intro hsome; simp [disconnectCallbackV2] at hsome
      · exact hinv
  | autoOffT => exact hinv
  | pushFalseT => exact hinv

/-- Claim C7: in every state reachable from construction by the
operations of the controller (discovery-loop connect, activation handler,
disconnect event, timer firings — in either variant), the write handle is
set only while `connected` is `true`; and the disconnect callback clears
`connected` and the write handle together. -/
theorem c7_write_handle_invariant (s : BotState) (h : ReachableState s) :
    WriteHandleInv s
    ∧ (∀ t : BotState,
        (disconnectCallbackV1 t).isConnected = false
        ∧ (disconnectCallbackV1 t).writeChar = none
        ∧ (disconnectCallbackV2 t).isConnected = false
        ∧ (disconnectCallbackV2 t).writeChar = none) := by
  refine ⟨?_, fun t => ⟨rfl, rfl, rfl, rfl⟩⟩
  induction h with
  | refl => intro hsome; simp [initState] at hsome
  | tail _ hstep ih => exact step_preserves_inv hstep ih

theorem c7_witness :
    (connectDeviceV2 initState (ConnectOutcome.ok true)).st.isConnected = true :=
  (c7_write_handle_invariant _
      (Relation.ReflTransGen.single (Step.scanV2 (ConnectOutcome.ok true) rfl))).1
    (by decide)

end PushBot
